import Mathlib

/-! MicroModem MP1 protocol header (`Modem/protocol/mp1.h`).

A shallow embedding of the compile-time configuration, the frame-sizing
macros, the control-byte constants and the protocol context `struct MP1`
declared in `mp1.h`, together with the properties of them that the
specification states.

The header defines its sizing macros without parentheses
(`#define MP1_MAX_FRAME_LENGTH 22 * MP1_INTERLEAVE_SIZE`), so a macro is
embedded as the token sequence the preprocessor substitutes, and an
expression that uses macros is evaluated only after substitution, with the
precedence and associativity of the C operators.
-/

namespace MicroModem

/-! ## Preprocessor tokens and C constant expressions -/

/-- Tokens of the integer constant expressions that occur in `mp1.h`. -/
inductive Tok where
  | num : Nat → Tok
  | add : Tok
  | sub : Tok
  | mul : Tok
  | div : Tok
  | lp : Tok
  | rp : Tok
deriving DecidableEq, Repr

/-- Binding strength of a binary operator of C: multiplicative operators
bind tighter than additive ones; everything else is not an operator. -/
def Tok.prec : Tok → Nat
  | .mul => 2
  | .div => 2
  | .add => 1
  | .sub => 1
  | _ => 0

/-- Value of one binary operation of C on integers; division truncates
towards zero and is undefined for a zero divisor. -/
def applyOp : Tok → Int → Int → Option Int
  | .add, a, b => some (a + b)
  | .sub, a, b => some (a - b)
  | .mul, a, b => some (a * b)
  | .div, a, b => if b = 0 then none else some (Int.tdiv a b)
  | _, _, _ => none

/-- Apply the pending operators whose binding strength is at least `p`
(all binary operators of C used here associate to the left), stopping at
an open parenthesis. -/
def reduceOps (p : Nat) : List Tok → List Int → Option (List Tok × List Int)
  | [], vals => some ([], vals)
  | op :: ops, vals =>
    if op = Tok.lp ∨ op.prec < p then some (op :: ops, vals)
    else
      match vals with
      | b :: a :: rest =>
        match applyOp op a b with
        | some v => reduceOps p ops (v :: rest)
        | none => none
      | _ => none

/-- Operator-precedence evaluation of a token sequence, with an operator
stack and a value stack. -/
def cEvalAux : List Tok → List Tok → List Int → Option Int
  | [], ops, vals =>
    match reduceOps 1 ops vals with
    | some ([], [v]) => some v
    | _ => none
  | Tok.num n :: ts, ops, vals => cEvalAux ts ops ((n : Int) :: vals)
  | Tok.lp :: ts, ops, vals => cEvalAux ts (Tok.lp :: ops) vals
  | Tok.rp :: ts, ops, vals =>
    match reduceOps 1 ops vals with
    | some (Tok.lp :: ops', vals') => cEvalAux ts ops' vals'
    | _ => none
  | op :: ts, ops, vals =>
    match reduceOps op.prec ops vals with
    | some (ops', vals') => cEvalAux ts (op :: ops') vals'
    | none => none

/-- Value of a C integer constant expression given as tokens. -/
def cEval (ts : List Tok) : Option Int := cEvalAux ts [] []

/-- A token sequence read as one parenthesised operand. -/
def paren (ts : List Tok) : List Tok := [Tok.lp] ++ ts ++ [Tok.rp]

/-! ## Options (`mp1.h` lines 7-15)

`true` and `false` are the macros `1` and `0` of `<stdbool.h>`, which the
header receives through `<cfg/compiler.h>`; `#if` is embedded as a test on
`Bool`.  The option `MP1_ENABLE_TCP_COMPATIBILITY` is the only free choice,
so every derived macro takes its value as an argument `tcp`. -/

/-- The shipped value: `#define MP1_ENABLE_TCP_COMPATIBILITY false`. -/
def MP1_ENABLE_TCP_COMPATIBILITY : Bool := false

/-- `#if MP1_ENABLE_TCP_COMPATIBILITY` selects `false`, otherwise `true`. -/
def MP1_ENABLE_COMPRESSION (tcp : Bool) : Bool :=
  if tcp then false else true

/-- `#if MP1_ENABLE_TCP_COMPATIBILITY` selects `true`, otherwise `false`. -/
def MP1_ENABLE_CSMA (tcp : Bool) : Bool :=
  if tcp then true else false

/-! ## Frame sizing and checksum (`mp1.h` lines 17-33) -/

/-- `#define MP1_INTERLEAVE_SIZE 12`, as substituted text. -/
def MP1_INTERLEAVE_SIZE_toks : List Tok := [Tok.num 12]

/-- `#define MP1_INTERLEAVE_SIZE 12`. -/
def MP1_INTERLEAVE_SIZE : Nat := 12

/-- `MP1_MAX_FRAME_LENGTH` as substituted text: `22 * MP1_INTERLEAVE_SIZE`
under `#if MP1_ENABLE_COMPRESSION`, else `25 * MP1_INTERLEAVE_SIZE`. -/
def MP1_MAX_FRAME_LENGTH_toks (tcp : Bool) : List Tok :=
  if MP1_ENABLE_COMPRESSION tcp then
    [Tok.num 22, Tok.mul] ++ MP1_INTERLEAVE_SIZE_toks
  else
    [Tok.num 25, Tok.mul] ++ MP1_INTERLEAVE_SIZE_toks

/-- `MP1_USE_TX_QUEUE`: `false` under `#if MP1_ENABLE_COMPRESSION`, else
`true`. -/
def MP1_USE_TX_QUEUE (tcp : Bool) : Bool :=
  if MP1_ENABLE_COMPRESSION tcp then false else true

/-- `MP1_TX_QUEUE_LENGTH`, defined as `2` only in the `#else` branch of
`#if MP1_ENABLE_COMPRESSION`. -/
def MP1_TX_QUEUE_LENGTH (tcp : Bool) : Option Nat :=
  if MP1_ENABLE_COMPRESSION tcp then none else some 2

/-- `MP1_QUEUE_TX_WAIT`, defined as `16UL` only in the `#else` branch. -/
def MP1_QUEUE_TX_WAIT (tcp : Bool) : Option Nat :=
  if MP1_ENABLE_COMPRESSION tcp then none else some 16

/-- `#define MP1_HEADER_SIZE 1`, as substituted text. -/
def MP1_HEADER_SIZE_toks : List Tok := [Tok.num 1]

/-- `#define MP1_CHECKSUM_SIZE 1`, as substituted text. -/
def MP1_CHECKSUM_SIZE_toks : List Tok := [Tok.num 1]

/-- `#define MP1_HEADER_SIZE 1`. -/
def MP1_HEADER_SIZE : Nat := 1

/-- `#define MP1_CHECKSUM_SIZE 1`. -/
def MP1_CHECKSUM_SIZE : Nat := 1

/-- `MP1_MAX_DATA_SIZE` as substituted text:
`MP1_MAX_FRAME_LENGTH - MP1_HEADER_SIZE - MP1_CHECKSUM_SIZE`. -/
def MP1_MAX_DATA_SIZE_toks (tcp : Bool) : List Tok :=
  MP1_MAX_FRAME_LENGTH_toks tcp ++ [Tok.sub] ++ MP1_HEADER_SIZE_toks
    ++ [Tok.sub] ++ MP1_CHECKSUM_SIZE_toks

/-- `#define MP1_MIN_FRAME_LENGTH MP1_INTERLEAVE_SIZE`, as substituted
text. -/
def MP1_MIN_FRAME_LENGTH_toks : List Tok := MP1_INTERLEAVE_SIZE_toks

/-- `#define MP1_DATA_BLOCK_SIZE ((MP1_INTERLEAVE_SIZE/3)*2)`, as
substituted text. -/
def MP1_DATA_BLOCK_SIZE_toks : List Tok :=
  [Tok.lp, Tok.lp] ++ MP1_INTERLEAVE_SIZE_toks
    ++ [Tok.div, Tok.num 3, Tok.rp, Tok.mul, Tok.num 2, Tok.rp]

/-- Size of an array declared `[toks]`: the value of the expression that
the substituted text forms. -/
def arrayDim (toks : List Tok) : Option Nat :=
  (cEval toks).map Int.toNat

/-- `MP1_MAX_FRAME_LENGTH` where it stands alone as an expression. -/
def MP1_MAX_FRAME_LENGTH (tcp : Bool) : Nat :=
  ((cEval (MP1_MAX_FRAME_LENGTH_toks tcp)).getD 0).toNat

/-- `MP1_MAX_DATA_SIZE` where it stands alone as an expression, as in the
array bound `[MP1_MAX_DATA_SIZE]` or the right operand of a comparison. -/
def MP1_MAX_DATA_SIZE (tcp : Bool) : Nat :=
  ((cEval (MP1_MAX_DATA_SIZE_toks tcp)).getD 0).toNat

/-- `MP1_DATA_BLOCK_SIZE` where it stands as an expression. -/
def MP1_DATA_BLOCK_SIZE : Nat :=
  ((cEval MP1_DATA_BLOCK_SIZE_toks).getD 0).toNat

/-- `#define MP1_CHECKSUM_INIT 0xAA`. -/
def MP1_CHECKSUM_INIT : Nat := 0xAA

/-! ## HDLC bytes and header flags (`mp1.h` lines 42-53) -/

/-- `#define HDLC_FLAG 0x7E`. -/
def HDLC_FLAG : Nat := 0x7E

/-- `#define HDLC_RESET 0x7F`. -/
def HDLC_RESET : Nat := 0x7F

/-- `#define AX25_ESC 0x1B`. -/
def AX25_ESC : Nat := 0x1B

/-- `#define MP1_PADDING 0x55`. -/
def MP1_PADDING : Nat := 0x55

/-- `#define MP1_HEADER_PADDED 0x01`. -/
def MP1_HEADER_PADDED : Nat := 0x01

/-- `#define MP1_HEADER_COMPRESSION 0x02`. -/
def MP1_HEADER_COMPRESSION : Nat := 0x02

/-- The C statement `h |= mask` on a `uint8_t h`. -/
def setFlag (h mask : Nat) : Nat := (h ||| mask) % 256

/-- The C statement `h &= ~mask` on a `uint8_t h`: `~` acts on the
promoted `int`, 16 bits wide on the AVR target, and the result is
truncated to 8 bits. -/
def clearFlag (h mask : Nat) : Nat := (h &&& (0xFFFF - mask)) % 256

/-- The C test `h & mask` on a `uint8_t h`. -/
def testFlag (h mask : Nat) : Bool := (h &&& mask) != 0

/-- Dimension of `uint8_t buffer[MP1_MAX_FRAME_LENGTH+MP1_INTERLEAVE_SIZE]`
(`mp1.h` line 64), after macro substitution. -/
def bufferDim (tcp : Bool) : Option Nat :=
  arrayDim (MP1_MAX_FRAME_LENGTH_toks tcp ++ [Tok.add] ++ MP1_INTERLEAVE_SIZE_toks)

/-- The same dimension with every macro read as a parenthesised
constant. -/
def bufferDimParen (tcp : Bool) : Option Nat :=
  arrayDim (paren (MP1_MAX_FRAME_LENGTH_toks tcp) ++ [Tok.add]
    ++ paren MP1_INTERLEAVE_SIZE_toks)

/-- Outer dimension of `frameQueue` and dimension of `frameLengths`
(`mp1.h` lines 83-84); the fields exist only under `#if MP1_USE_TX_QUEUE`. -/
def queueEntries (tcp : Bool) : Option Nat :=
  if MP1_USE_TX_QUEUE tcp then MP1_TX_QUEUE_LENGTH tcp else none

/-- Inner dimension `[MP1_MAX_DATA_SIZE]` of `frameQueue` (`mp1.h` line
85), after macro substitution; only under `#if MP1_USE_TX_QUEUE`. -/
def queueEntryCapacity (tcp : Bool) : Option Nat :=
  if MP1_USE_TX_QUEUE tcp then arrayDim (MP1_MAX_DATA_SIZE_toks tcp) else none

/-! ## The protocol context (`mp1.h` lines 62-93) -/

/-- The fields of `struct MP1` that exist only under
`#if MP1_USE_TX_QUEUE` (`mp1.h` lines 80-86). -/
structure MP1Queue where
  /-- Field `bool queueProcessing`. -/
  queueProcessing : Bool
  /-- Field `size_t queueLength`. -/
  queueLength : Nat
  /-- Field `size_t frameLengths[MP1_TX_QUEUE_LENGTH]`. -/
  frameLengths : List Nat
  /-- Field `uint8_t frameQueue[MP1_TX_QUEUE_LENGTH][MP1_MAX_DATA_SIZE]`. -/
  frameQueue : List (List Nat)
deriving DecidableEq, Repr

/-- The protocol context `struct MP1`.  Bytes are natural numbers below
256; the modem `KFile` is represented by the bytes written to it so far and
the callback by the address of the function. -/
structure MP1 where
  /-- Field `uint8_t buffer[MP1_MAX_FRAME_LENGTH+MP1_INTERLEAVE_SIZE]`. -/
  buffer : List Nat
  /-- Field `KFile *modem`: the bytes written to the modem, oldest first. -/
  modem : List Nat
  /-- Field `size_t packetLength`. -/
  packetLength : Nat
  /-- Field `size_t readLength`. -/
  readLength : Nat
  /-- Field `uint8_t calculatedParity`. -/
  calculatedParity : Nat
  /-- Field `mp1_callback_t callback`. -/
  callback : Nat
  /-- Field `uint8_t checksum_in`. -/
  checksum_in : Nat
  /-- Field `uint8_t checksum_out`. -/
  checksum_out : Nat
  /-- Field `bool reading`. -/
  reading : Bool
  /-- Field `bool escape`. -/
  escape : Bool
  /-- Field `ticks_t settleTimer`. -/
  settleTimer : Nat
  /-- Field `long correctionsMade`. -/
  correctionsMade : Int
  /-- Field `uint8_t interleaveCounter`: "keeps track of when we have
  received an entire interleaved block". -/
  interleaveCounter : Nat
  /-- Field `uint8_t interleaveOut[MP1_INTERLEAVE_SIZE]`. -/
  interleaveOut : List Nat
  /-- Field `uint8_t interleaveIn[MP1_INTERLEAVE_SIZE]`. -/
  interleaveIn : List Nat
  /-- Field `uint8_t randomSeed`. -/
  randomSeed : Nat
  /-- The queue fields, absent when `MP1_USE_TX_QUEUE` is false. -/
  txQueue : Option MP1Queue
deriving DecidableEq, Repr

/-- A packet handed to the callback, `struct MP1Packet`: the data and
`dataLength`. -/
structure MP1Packet where
  /-- Field `const uint8_t *data`: the bytes pointed to. -/
  data : List Nat
  /-- Field `size_t dataLength`. -/
  dataLength : Nat
deriving DecidableEq, Repr

/-- A context at rest for the configuration `tcp`: buffers of their
declared sizes filled with zero, counters zero, not reading, nothing
written to the modem. -/
def idleContext (tcp : Bool) : MP1 where
  buffer := List.replicate ((bufferDim tcp).getD 0) 0
  modem := []
  packetLength := 0
  readLength := 0
  calculatedParity := 0
  callback := 0
  checksum_in := MP1_CHECKSUM_INIT
  checksum_out := MP1_CHECKSUM_INIT
  reading := false
  escape := false
  settleTimer := 0
  correctionsMade := 0
  interleaveCounter := 0
  interleaveOut := List.replicate MP1_INTERLEAVE_SIZE 0
  interleaveIn := List.replicate MP1_INTERLEAVE_SIZE 0
  randomSeed := 0
  txQueue :=
    if MP1_USE_TX_QUEUE tcp then
      some { queueProcessing := false, queueLength := 0,
             frameLengths := List.replicate ((queueEntries tcp).getD 0) 0,
             frameQueue := List.replicate ((queueEntries tcp).getD 0)
               (List.replicate ((queueEntryCapacity tcp).getD 0) 0) }
    else none

/-! ## Interleaver

`mp1.h` declares `mp1Interleave` and `mp1Deinterleave`; their bodies are
in `mp1.c`.  The block permutation is not fixed by the header or the
specification, so it is an argument `perm`: a table with one entry per
block position, entry `i` naming the position of the input block whose
byte is sent at position `i`. -/

/-- A table is a permutation of the block positions `0 .. 11`. -/
def IsBlockPerm (perm : List Nat) : Prop :=
  perm.Perm (List.range MP1_INTERLEAVE_SIZE)

instance (perm : List Nat) : Decidable (IsBlockPerm perm) := by
  unfold IsBlockPerm; infer_instance

/-- Modelled from the spec: the reordering of `mp1Interleave`, whose body
is in `mp1.c`.  "`encode(block)` reorders exactly one block's worth of
bytes ... using a fixed, deterministic permutation": output position `i`
carries the input byte at position `perm[i]`. -/
def interleaveBlock (perm : List Nat) (block : List Nat) : List Nat :=
  perm.map fun j => block.getD j 0

/-- Modelled from the spec: the reordering of `mp1Deinterleave`, whose
body is in `mp1.c`.  "`decode(block)` applies the exact inverse
permutation": output position `j` carries the input byte at the position
where the table holds `j`. -/
def deinterleaveBlock (perm : List Nat) (block : List Nat) : List Nat :=
  (List.range MP1_INTERLEAVE_SIZE).map fun j => block.getD (perm.indexOf j) 0

/-- Modelled from the spec: the byte writer behind the transmit path,
whose body is in `mp1.c`.  "escaping applied to any emitted byte equal to
the flag, escape, or reset value": such a byte is preceded by the escape
byte, any other byte is written as it is. -/
def writeEscaped (m : MP1) (byte : Nat) : MP1 :=
  if byte = HDLC_FLAG ∨ byte = HDLC_RESET ∨ byte = AX25_ESC then
    { m with modem := m.modem ++ [AX25_ESC, byte] }
  else
    { m with modem := m.modem ++ [byte] }

/-- The bytes that `writeEscaped` puts on the modem for a byte list. -/
def escapeBytes (bytes : List Nat) : List Nat :=
  bytes.flatMap fun b =>
    if b = HDLC_FLAG ∨ b = HDLC_RESET ∨ b = AX25_ESC then [AX25_ESC, b] else [b]

/-- Modelled from the spec: `void mp1Interleave(MP1 *mp1, uint8_t byte)`,
whose body is in `mp1.c`.  The byte is stored in `interleaveOut` ("a
buffer for interleaving bytes before they are sent") at
`interleaveCounter`; the counter advances and "reset[s] to 0 exactly when
a block completes", at which point the reordered block is written to the
modem. -/
def mp1Interleave (perm : List Nat) (m : MP1) (byte : Nat) : MP1 :=
  let out := m.interleaveOut.set m.interleaveCounter byte
  if m.interleaveCounter + 1 = MP1_INTERLEAVE_SIZE then
    (interleaveBlock perm out).foldl writeEscaped
      { m with interleaveOut := out, interleaveCounter := 0 }
  else
    { m with interleaveOut := out, interleaveCounter := m.interleaveCounter + 1 }

/-- Modelled from the spec: `void mp1Deinterleave(MP1 *mp1)`, whose body
is in `mp1.c`.  The block held in `interleaveIn` ("a buffer for storing
interleaved bytes before they are deinterleaved") is reordered in place by
the inverse permutation. -/
def mp1Deinterleave (perm : List Nat) (m : MP1) : MP1 :=
  { m with interleaveIn := deinterleaveBlock perm m.interleaveIn }

/-- A block permutation used in examples: the transposition of a 3 x 4
arrangement of the block positions. -/
def samplePerm : List Nat := [0, 4, 8, 1, 5, 9, 2, 6, 10, 3, 7, 11]

/-- A block of twelve bytes used in examples; it holds the flag, reset and
escape bytes. -/
def sampleBlock : List Nat :=
  [0x7E, 0x10, 0x7F, 0x30, 0x1B, 0x50, 0x60, 0x70, 0x80, 0x90, 0xA0, 0xB0]

/-! ## Sending

`mp1.h` declares `void mp1Send(MP1 *mp1, void *_buffer, size_t length)`;
the body is in `mp1.c`. -/

/-- Modelled from the spec: `mp1Send`, whose body is in `mp1.c`.  "fails
with `OversizeFrame` if `length` exceeds the maximum payload size" and
"leaves internal state unchanged"; otherwise the frame is written, which is
the argument `emit`.  The result pairs the context after the call with the
value the C function returns, which for the declared return type `void` is
the unit value. -/
def mp1Send (tcp : Bool) (emit : MP1 → List Nat → Nat → MP1)
    (m : MP1) (buffer : List Nat) (length : Nat) : MP1 × Unit :=
  if length > MP1_MAX_DATA_SIZE tcp then (m, ())
  else (emit m buffer length, ())

/-- A frame writer used in examples: opening flag, the payload bytes
escaped, closing flag. -/
def sampleEmit (m : MP1) (buffer : List Nat) (length : Nat) : MP1 :=
  let m1 := { m with modem := m.modem ++ [HDLC_FLAG] }
  let m2 := (buffer.take length).foldl writeEscaped m1
  { m2 with modem := m2.modem ++ [HDLC_FLAG] }

/-! ## Properties of the configuration and the constants -/

/-- C4: for each value of `MP1_ENABLE_TCP_COMPATIBILITY` exactly one of
`MP1_ENABLE_COMPRESSION` and `MP1_ENABLE_CSMA` is true, `MP1_USE_TX_QUEUE`
is true exactly when `MP1_ENABLE_CSMA` is, that is exactly when
`MP1_ENABLE_COMPRESSION` is not, and the shipped value gives compression
on, CSMA off, transmit queue off. -/
theorem mode_selection_exclusive :
    (∀ tcp : Bool,
      ((MP1_ENABLE_COMPRESSION tcp = true ∧ MP1_ENABLE_CSMA tcp = false) ∨
        (MP1_ENABLE_COMPRESSION tcp = false ∧ MP1_ENABLE_CSMA tcp = true)) ∧
      MP1_USE_TX_QUEUE tcp = MP1_ENABLE_CSMA tcp ∧
      MP1_USE_TX_QUEUE tcp = !MP1_ENABLE_COMPRESSION tcp) ∧
    MP1_ENABLE_TCP_COMPATIBILITY = false ∧
    MP1_ENABLE_COMPRESSION MP1_ENABLE_TCP_COMPATIBILITY = true ∧
    MP1_ENABLE_CSMA MP1_ENABLE_TCP_COMPATIBILITY = false ∧
    MP1_USE_TX_QUEUE MP1_ENABLE_TCP_COMPATIBILITY = false := by
  refine ⟨?_, rfl, rfl, rfl, rfl⟩
  intro tcp
  cases tcp <;> decide

/-- C5: in both configurations the dimension of `MP1.buffer`, evaluated
on the substituted text `22 * 12+12` resp. `25 * 12+12` with the operator
precedence of C, is the maximum frame length plus one interleave block,
276 = 264 + 12 with compression and 312 = 300 + 12 without, and it is the
value obtained when every macro is read as a parenthesised constant. -/
theorem buffer_capacity :
    MP1_MAX_FRAME_LENGTH_toks false ++ [Tok.add] ++ MP1_INTERLEAVE_SIZE_toks
      = [Tok.num 22, Tok.mul, Tok.num 12, Tok.add, Tok.num 12] ∧
    MP1_MAX_FRAME_LENGTH_toks true ++ [Tok.add] ++ MP1_INTERLEAVE_SIZE_toks
      = [Tok.num 25, Tok.mul, Tok.num 12, Tok.add, Tok.num 12] ∧
    (∀ tcp : Bool,
      bufferDim tcp = some (MP1_MAX_FRAME_LENGTH tcp + MP1_INTERLEAVE_SIZE) ∧
      bufferDim tcp = some (if MP1_ENABLE_COMPRESSION tcp then 276 else 312) ∧
      MP1_MAX_FRAME_LENGTH tcp = (if MP1_ENABLE_COMPRESSION tcp then 264 else 300) ∧
      bufferDim tcp = bufferDimParen tcp) := by
  refine ⟨by decide, by decide, ?_⟩
  intro tcp
  cases tcp <;> decide

/-- C6: `MP1_DATA_BLOCK_SIZE` is `(MP1_INTERLEAVE_SIZE / 3) * 2` with
integer division, which is 8 for the interleave size 12; nothing is
truncated, since 12 is divisible by 3, so three times the data block size
is twice the interleave size, and 4 positions of a block remain. -/
theorem data_block_size :
    MP1_DATA_BLOCK_SIZE = (MP1_INTERLEAVE_SIZE / 3) * 2 ∧
    MP1_DATA_BLOCK_SIZE = 8 ∧
    MP1_INTERLEAVE_SIZE % 3 = 0 ∧
    3 * MP1_DATA_BLOCK_SIZE = 2 * MP1_INTERLEAVE_SIZE ∧
    MP1_INTERLEAVE_SIZE - MP1_DATA_BLOCK_SIZE = 4 := by
  decide

/-- C7: `MP1_HEADER_PADDED` is bit 0 and `MP1_HEADER_COMPRESSION` is bit
1, the masks are disjoint, and for every header byte `h` setting or
clearing one flag leaves the test of the other flag as it was, so that
each of the four combinations of the two flags can be written to `h` and
read back. -/
theorem header_flag_bits (h : Nat) (hh : h < 256) :
    MP1_HEADER_PADDED = 2 ^ 0 ∧
    MP1_HEADER_COMPRESSION = 2 ^ 1 ∧
    MP1_HEADER_PADDED &&& MP1_HEADER_COMPRESSION = 0 ∧
    testFlag (setFlag h MP1_HEADER_PADDED) MP1_HEADER_COMPRESSION
      = testFlag h MP1_HEADER_COMPRESSION ∧
    testFlag (clearFlag h MP1_HEADER_PADDED) MP1_HEADER_COMPRESSION
      = testFlag h MP1_HEADER_COMPRESSION ∧
    testFlag (setFlag h MP1_HEADER_COMPRESSION) MP1_HEADER_PADDED
      = testFlag h MP1_HEADER_PADDED ∧
    testFlag (clearFlag h MP1_HEADER_COMPRESSION) MP1_HEADER_PADDED
      = testFlag h MP1_HEADER_PADDED ∧
    (∀ p c : Bool,
      testFlag
          ((if c then setFlag else clearFlag)
            ((if p then setFlag else clearFlag) h MP1_HEADER_PADDED)
            MP1_HEADER_COMPRESSION)
          MP1_HEADER_PADDED = p ∧
      testFlag
          ((if c then setFlag else clearFlag)
            ((if p then setFlag else clearFlag) h MP1_HEADER_PADDED)
            MP1_HEADER_COMPRESSION)
          MP1_HEADER_COMPRESSION = c) := by
  interval_cases h <;> decide

/-- Witness of C7 at the header byte `0xF0`. -/
theorem header_flag_bits_witness :
    (0xF0 : Nat) < 256 ∧
    testFlag (setFlag 0xF0 MP1_HEADER_PADDED) MP1_HEADER_COMPRESSION
      = testFlag 0xF0 MP1_HEADER_COMPRESSION ∧
    testFlag (clearFlag 0xF0 MP1_HEADER_COMPRESSION) MP1_HEADER_PADDED
      = testFlag 0xF0 MP1_HEADER_PADDED :=
  ⟨by decide, (header_flag_bits 0xF0 (by decide)).2.2.2.1,
    (header_flag_bits 0xF0 (by decide)).2.2.2.2.2.2.1⟩

/-- C8: where the queue exists (`MP1_ENABLE_TCP_COMPATIBILITY` true),
`frameLengths` and `frameQueue` hold `MP1_TX_QUEUE_LENGTH` = 2 entries, the
capacity of an entry is the value of the substituted text
`25 * 12 - 1 - 1`, 298 = 300 - 1 - 1, and every length that `mp1Send`
does not treat as oversize fits in an entry. -/
theorem tx_queue_bounds (length : Nat) (hlen : length ≤ MP1_MAX_DATA_SIZE true) :
    MP1_USE_TX_QUEUE true = true ∧
    MP1_TX_QUEUE_LENGTH true = some 2 ∧
    queueEntries true = some 2 ∧
    MP1_MAX_DATA_SIZE_toks true
      = [Tok.num 25, Tok.mul, Tok.num 12, Tok.sub, Tok.num 1, Tok.sub, Tok.num 1] ∧
    queueEntryCapacity true = some 298 ∧
    MP1_MAX_FRAME_LENGTH true = 300 ∧
    298 = MP1_MAX_FRAME_LENGTH true - MP1_HEADER_SIZE - MP1_CHECKSUM_SIZE ∧
    (∃ cap, queueEntryCapacity true = some cap ∧ length ≤ cap) := by
  refine ⟨by decide, by decide, by decide, by decide, by decide, by decide, by decide, ?_⟩
  refine ⟨298, by decide, ?_⟩
  have h : MP1_MAX_DATA_SIZE true = 298 := by decide
  omega

/-- Witness of C8 at the largest accepted length, 298. -/
theorem tx_queue_bounds_witness :
    298 ≤ MP1_MAX_DATA_SIZE true ∧
    (∃ cap, queueEntryCapacity true = some cap ∧ 298 ≤ cap) :=
  ⟨by decide, (tx_queue_bounds 298 (by decide)).2.2.2.2.2.2.2⟩

/-- C10: the flag, reset and escape bytes are three different byte
values, so every byte is in exactly one of the classes flag, reset, escape
and ordinary data; the padding byte and the checksum seed are none of the
three, so a padding byte is ordinary data. -/
theorem control_bytes_unambiguous (b : Nat) :
    HDLC_FLAG < 256 ∧ HDLC_RESET < 256 ∧ AX25_ESC < 256 ∧
    HDLC_FLAG ≠ HDLC_RESET ∧ HDLC_FLAG ≠ AX25_ESC ∧ HDLC_RESET ≠ AX25_ESC ∧
    ([decide (b = HDLC_FLAG), decide (b = HDLC_RESET), decide (b = AX25_ESC),
      decide (b ≠ HDLC_FLAG ∧ b ≠ HDLC_RESET ∧ b ≠ AX25_ESC)].count true = 1) ∧
    MP1_PADDING < 256 ∧ MP1_CHECKSUM_INIT < 256 ∧
    (MP1_PADDING ≠ HDLC_FLAG ∧ MP1_PADDING ≠ HDLC_RESET ∧ MP1_PADDING ≠ AX25_ESC) ∧
    (MP1_CHECKSUM_INIT ≠ HDLC_FLAG ∧ MP1_CHECKSUM_INIT ≠ HDLC_RESET ∧
      MP1_CHECKSUM_INIT ≠ AX25_ESC) := by
  refine ⟨by decide, by decide, by decide, by decide, by decide, by decide, ?_,
    by decide, by decide, by decide, by decide⟩
  by_cases h1 : b = HDLC_FLAG
  · subst h1; decide
  · by_cases h2 : b = HDLC_RESET
    · subst h2; decide
    · by_cases h3 : b = AX25_ESC
      · subst h3; decide
      · simp [h1, h2, h3]


/-! ## Properties of the interleaver -/

theorem blockPerm_length {perm : List Nat} (hp : IsBlockPerm perm) :
    perm.length = MP1_INTERLEAVE_SIZE := by
  have := hp.length_eq
  simpa using this

theorem blockPerm_mem {perm : List Nat} (hp : IsBlockPerm perm) {j : Nat}
    (hj : j < MP1_INTERLEAVE_SIZE) : j ∈ perm :=
  hp.mem_iff.mpr (List.mem_range.mpr hj)

theorem blockPerm_lt {perm : List Nat} (hp : IsBlockPerm perm) {j : Nat}
    (hj : j ∈ perm) : j < MP1_INTERLEAVE_SIZE :=
  List.mem_range.mp (hp.mem_iff.mp hj)

theorem blockPerm_nodup {perm : List Nat} (hp : IsBlockPerm perm) : perm.Nodup :=
  hp.nodup_iff.mpr (List.nodup_range MP1_INTERLEAVE_SIZE)

/-- De-interleaving undoes interleaving on a block of the block size. -/
theorem deinterleave_interleave (perm block : List Nat) (hp : IsBlockPerm perm)
    (hb : block.length = MP1_INTERLEAVE_SIZE) :
    deinterleaveBlock perm (interleaveBlock perm block) = block := by
  apply List.ext_getElem
  · simp [deinterleaveBlock, hb]
  · intro n h1 h2
    have hn : n < MP1_INTERLEAVE_SIZE := by simpa [hb] using h2
    have hidx : perm.indexOf n < perm.length :=
      List.indexOf_lt_length.mpr (blockPerm_mem hp hn)
    simp only [deinterleaveBlock, interleaveBlock, List.getElem_map, List.getElem_range]
    rw [List.getD_eq_getElem _ _ (by simpa using hidx)]
    simp only [List.getElem_map]
    rw [List.getElem_indexOf hidx, List.getD_eq_getElem _ _ h2]

/-- Interleaving undoes de-interleaving on a block of the block size. -/
theorem interleave_deinterleave (perm block : List Nat) (hp : IsBlockPerm perm)
    (hb : block.length = MP1_INTERLEAVE_SIZE) :
    interleaveBlock perm (deinterleaveBlock perm block) = block := by
  have hl := blockPerm_length hp
  apply List.ext_getElem
  · simp [interleaveBlock, hb, hl]
  · intro n h1 h2
    have hn : n < perm.length := by simpa [interleaveBlock] using h1
    have hlt : perm[n] < MP1_INTERLEAVE_SIZE := blockPerm_lt hp (List.getElem_mem _)
    simp only [deinterleaveBlock, interleaveBlock, List.getElem_map]
    rw [List.getD_eq_getElem _ _ (by simpa using hlt)]
    simp only [List.getElem_map, List.getElem_range]
    rw [List.indexOf_getElem (blockPerm_nodup hp) n hn, List.getD_eq_getElem _ _ h2]

/-- Writing a byte list through `writeEscaped` appends its escaped form to
the modem and changes no other field. -/
theorem foldl_writeEscaped (bytes : List Nat) (m : MP1) :
    bytes.foldl writeEscaped m = { m with modem := m.modem ++ escapeBytes bytes } := by
  induction bytes generalizing m with
  | nil => simp [escapeBytes]
  | cons b bs ih =>
    rw [List.foldl_cons, ih]
    unfold writeEscaped escapeBytes
    by_cases hb : b = HDLC_FLAG ∨ b = HDLC_RESET ∨ b = AX25_ESC
    · simp [hb, List.flatMap_cons]
    · simp [hb, List.flatMap_cons]

/-- Twelve calls of `mp1Interleave`, starting with an empty block, write
the escaped form of the interleaved block to the modem, fill
`interleaveOut` with the block and return the counter to 0. -/
theorem mp1Interleave_block (perm block : List Nat) (m : MP1)
    (hb : block.length = MP1_INTERLEAVE_SIZE)
    (hc : m.interleaveCounter = 0)
    (ho : m.interleaveOut.length = MP1_INTERLEAVE_SIZE) :
    block.foldl (mp1Interleave perm) m =
      { m with modem := m.modem ++ escapeBytes (interleaveBlock perm block),
               interleaveOut := block, interleaveCounter := 0 } := by
  obtain ⟨buffer, modem, pl, rl, cp, cb, ci, co, rd, es, st, cm, ic, io, ii, rs, q⟩ := m
  simp only at hc ho
  subst hc
  match block, hb with
  | [b0, b1, b2, b3, b4, b5, b6, b7, b8, b9, b10, b11], _ =>
    match io, ho with
    | [o0, o1, o2, o3, o4, o5, o6, o7, o8, o9, o10, o11], _ =>
      simp [mp1Interleave, MP1_INTERLEAVE_SIZE, foldl_writeEscaped]

/-- C2: for a block of `MP1_INTERLEAVE_SIZE` bytes, the twelve calls of
`mp1Interleave` hand the interleaved block to the modem writer, and
`mp1Deinterleave` applied to that block gives back the original block; the
two reorderings are inverse to each other in both orders. -/
theorem interleaver_bijection (perm block : List Nat) (m : MP1)
    (hp : IsBlockPerm perm) (hb : block.length = MP1_INTERLEAVE_SIZE)
    (hc : m.interleaveCounter = 0)
    (ho : m.interleaveOut.length = MP1_INTERLEAVE_SIZE) :
    (block.foldl (mp1Interleave perm) m).modem
      = m.modem ++ escapeBytes (interleaveBlock perm block) ∧
    (mp1Deinterleave perm
        { m with interleaveIn := interleaveBlock perm block }).interleaveIn = block ∧
    deinterleaveBlock perm (interleaveBlock perm block) = block ∧
    interleaveBlock perm (deinterleaveBlock perm block) = block := by
  refine ⟨?_, ?_, deinterleave_interleave perm block hp hb,
    interleave_deinterleave perm block hp hb⟩
  · rw [mp1Interleave_block perm block m hb hc ho]
  · simp [mp1Deinterleave, deinterleave_interleave perm block hp hb]

/-- Witness of C2 at the sample permutation and a block that holds the
flag, reset and escape bytes. -/
theorem interleaver_bijection_witness :
    IsBlockPerm samplePerm ∧ sampleBlock.length = MP1_INTERLEAVE_SIZE ∧
    (idleContext false).interleaveCounter = 0 ∧
    (idleContext false).interleaveOut.length = MP1_INTERLEAVE_SIZE ∧
    (mp1Deinterleave samplePerm
        { idleContext false with
          interleaveIn := interleaveBlock samplePerm sampleBlock }).interleaveIn
      = sampleBlock :=
  ⟨by decide, by decide, by decide, by decide,
    (interleaver_bijection samplePerm sampleBlock (idleContext false)
      (by decide) (by decide) (by decide) (by decide)).2.1⟩

/-! ## Properties of sending -/

/-- C3, as stated, fails: `mp1Send` is declared `void`, so the value it
returns for an oversize length (263 with compression enabled) is the value
it returns for an accepted length; no error reaches the caller through the
return value. -/
theorem mp1Send_returns_no_error :
    263 > MP1_MAX_DATA_SIZE false ∧ 1 ≤ MP1_MAX_DATA_SIZE false ∧
    (mp1Send false sampleEmit (idleContext false) (List.replicate 263 0x41) 263).2
      = (mp1Send false sampleEmit (idleContext false) [0x41] 1).2 ∧
    ¬ ∃ isError : Unit → Bool,
      isError (mp1Send false sampleEmit (idleContext false)
        (List.replicate 263 0x41) 263).2 = true ∧
      isError (mp1Send false sampleEmit (idleContext false) [0x41] 1).2 = false := by
  refine ⟨by decide, by decide, rfl, ?_⟩
  rintro ⟨f, h1, h2⟩
  rw [show (mp1Send false sampleEmit (idleContext false)
    (List.replicate 263 0x41) 263).2 = () from rfl] at h1
  rw [show (mp1Send false sampleEmit (idleContext false) [0x41] 1).2 = () from rfl] at h2
  rw [h1] at h2
  exact Bool.noConfusion h2

/-- C3, amended: a call of `mp1Send` with a length above
`MP1_MAX_DATA_SIZE` leaves every field of the context as it was, writes
nothing to the modem, and a frame sent right after it is sent as if the
oversize call had not been made. -/
theorem mp1Send_oversize_unchanged (tcp : Bool) (emit : MP1 → List Nat → Nat → MP1)
    (m : MP1) (buffer : List Nat) (length : Nat)
    (hlen : length > MP1_MAX_DATA_SIZE tcp) :
    (mp1Send tcp emit m buffer length).1 = m ∧
    (mp1Send tcp emit m buffer length).1.modem = m.modem ∧
    (∀ (next : List Nat) (n : Nat),
      mp1Send tcp emit (mp1Send tcp emit m buffer length).1 next n
        = mp1Send tcp emit m next n) := by
  have h : (mp1Send tcp emit m buffer length).1 = m := by
    simp [mp1Send, hlen]
  refine ⟨h, by rw [h], ?_⟩
  intro next n
  rw [h]

/-- Witness of C3 (amended): 263 bytes with compression enabled. -/
theorem mp1Send_oversize_unchanged_witness :
    263 > MP1_MAX_DATA_SIZE false ∧
    (mp1Send false sampleEmit (idleContext false) (List.replicate 263 0x41) 263).1
      = idleContext false :=
  ⟨by decide,
    (mp1Send_oversize_unchanged false sampleEmit (idleContext false)
      (List.replicate 263 0x41) 263 (by decide)).1⟩

end MicroModem
